import Mathlib

/-!
Verification of the membrane_rtmp_plugin native core.

The development shallowly embeds the three C translation units of the
repository:

* `c_src/membrane_rtmp_plugin/sink/rtmp_sink.c` — the egress session
  (namespace `RtmpSink`);
* `c_src/membrane_rtmp_plugin/rtmp.c` — the legacy ingest session with a
  push-mode worker (namespace `Rtmp`);
* `c_src/membrane_rtmp_plugin/source/rtmp_source.c` — the ingest session
  (namespace `RtmpSource`).

Calls into the external media library (libav) are represented by explicit
oracle parameters (success/failure of a header, frame or trailer write,
of the open/probe phase), and the session structs are mirrored field by
field.  Machine integers are modelled as unbounded `Int`; the timestamp
rescaler, whose implementation lives in the external library, is modelled
from the specification of the rescaling component.
-/

namespace AVUtil

/-- Modelled from the spec: the timestamp rescaler (`av_rescale_q` /
`av_rescale_q_rnd` of the external media library, not part of this
repository's sources). Given a value `v` and rational time bases
`(n1,d1) → (n2,d2)`, it computes `round(v * n1 * d2 / (d1 * n2))` using
round-to-nearest with ties away from zero. -/
def round_near (p q : Int) : Int :=
  if 0 ≤ p then (p + q / 2) / q else -((-p + q / 2) / q)

/-- Rescale `v` from time base `bq` to time base `cq`, rounding to the
nearest representable value (`AV_ROUND_NEAR_INF`). -/
def av_rescale_q (v : Int) (bq cq : Int × Int) : Int :=
  round_near (v * (bq.1 * cq.2)) (bq.2 * cq.1)

def INT64_MIN : Int := -(2 ^ 63)

def INT64_MAX : Int := 2 ^ 63 - 1

/-- Modelled from the spec: rescaling with
`AV_ROUND_NEAR_INF | AV_ROUND_PASS_MINMAX` — the two extreme 64-bit
sentinel values pass through unchanged, every other value is rescaled
with round-to-nearest. -/
def av_rescale_q_rnd (v : Int) (bq cq : Int × Int) : Int :=
  if v = INT64_MIN ∨ v = INT64_MAX then v else av_rescale_q v bq cq

end AVUtil

namespace RtmpSink

/-- `MEMBRANE_TIME_BASE = {1, 1000000000}` (rtmp_sink.c line 4). -/
def MEMBRANE_TIME_BASE : Int × Int := (1, 1000000000)

/-- Parameters stored by `init_video_stream` on the video output stream. -/
structure VideoParams where
  width : Int
  height : Int
  extradata : List Nat
deriving DecidableEq, Repr

/-- Parameters stored by `init_audio_stream` on the audio output stream. -/
structure AudioParams where
  channels : Int
  sample_rate : Int
  extradata : List Nat
deriving DecidableEq, Repr

/-- The egress session struct `State` of rtmp_sink.h, together with the
observable content of the attached output container: the number of
allocated output streams and the stream parameters the two registration
calls copied into the container.  `output_ctx` records whether the
pointer is non-NULL; the per-stream time bases are chosen by the
container library and are carried as plain data. -/
structure State where
  output_ctx : Bool
  audio_present : Bool
  video_present : Bool
  closed : Bool
  video_stream_index : Int
  current_video_dts : Int
  audio_stream_index : Int
  current_audio_pts : Int
  header_written : Bool
  nb_streams : Nat
  video_params : Option VideoParams
  audio_params : Option AudioParams
  video_time_base : Int × Int
  audio_time_base : Int × Int
deriving DecidableEq, Repr

/-- `handle_init_state` (rtmp_sink.c lines 247-258): the freshly allocated
session.  The stream time bases are parameters of the model (the library
assigns them when streams are created). -/
def handle_init_state (vtb atb : Int × Int) : State where
  output_ctx := false
  audio_present := false
  video_present := false
  closed := false
  video_stream_index := -1
  current_video_dts := 0
  audio_stream_index := -1
  current_audio_pts := 0
  header_written := false
  nb_streams := 0
  video_params := none
  audio_params := none
  video_time_base := vtb
  audio_time_base := atb

/-- `create` (rtmp_sink.c lines 10-29) after a successful output-context
allocation: init state, record the expected stream kinds, attach the
container. -/
def create_state (audio_present video_present : Bool) (vtb atb : Int × Int) :
    State :=
  { handle_init_state vtb atb with
    audio_present := audio_present
    video_present := video_present
    output_ctx := true }

/-- `is_ready` (rtmp_sink.c lines 266-269). -/
def is_ready (s : State) : Bool :=
  (!s.audio_present || s.audio_stream_index != -1) &&
  (!s.video_present || s.video_stream_index != -1)

/-- Result of a registration call. -/
inductive InitStreamResult
  | ok (ready : Bool)
  | error_stream_format_resent
  | raise (msg : String)
deriving DecidableEq, Repr

/-- Outcome of one registration call: the returned term, whether the
container header was successfully written during the call, and the
session state afterwards. -/
structure InitStep where
  result : InitStreamResult
  header_write : Bool
  state : State
deriving DecidableEq, Repr

/-- The state mutation of `init_video_stream` (rtmp_sink.c lines 71-89):
allocate a new container stream (its index is the current stream count)
and copy width, height and the codec configuration into it. -/
def register_video (s : State) (width height : Int)
    (avc_config : List Nat) : State :=
  { s with
    video_stream_index := (s.nb_streams : Int)
    nb_streams := s.nb_streams + 1
    video_params := some ⟨width, height, avc_config⟩ }

/-- The state mutation of `init_audio_stream` (rtmp_sink.c lines
108-131). -/
def register_audio (s : State) (channels sample_rate : Int)
    (aac_config : List Nat) : State :=
  { s with
    audio_stream_index := (s.nb_streams : Int)
    nb_streams := s.nb_streams + 1
    audio_params := some ⟨channels, sample_rate, aac_config⟩ }

/-- The header idiom shared by both registration calls (rtmp_sink.c
lines 91-98 and 133-140): when the session has just become ready and no
header was written yet, write the container header; a failed header
write raises without setting `header_written`. -/
def header_phase (s1 : State) (header_ok : Bool) : InitStep :=
  if is_ready s1 && !s1.header_written then
    if header_ok then
      ⟨.ok (is_ready s1), true, { s1 with header_written := true }⟩
    else ⟨.raise "Failed writing header", false, s1⟩
  else ⟨.ok (is_ready s1), false, s1⟩

/-- `init_video_stream` (rtmp_sink.c lines 64-99).  `header_ok` is the
oracle for the `avformat_write_header` call. -/
def init_video_stream (s : State) (width height : Int)
    (avc_config : List Nat) (header_ok : Bool) : InitStep :=
  if s.video_stream_index ≠ -1 then
    ⟨.error_stream_format_resent, false, s⟩
  else header_phase (register_video s width height avc_config) header_ok

/-- `init_audio_stream` (rtmp_sink.c lines 101-141). -/
def init_audio_stream (s : State) (channels sample_rate : Int)
    (aac_config : List Nat) (header_ok : Bool) : InitStep :=
  if s.audio_stream_index ≠ -1 then
    ⟨.error_stream_format_resent, false, s⟩
  else header_phase (register_audio s channels sample_rate aac_config) header_ok

/-- One registration call of either kind (used to quantify over every
interleaving of registration order). -/
inductive InitEvent
  | video (width height : Int) (avc_config : List Nat)
  | audio (channels sample_rate : Int) (aac_config : List Nat)
deriving DecidableEq, Repr

/-- Dispatch one registration event, with the header write succeeding. -/
def step_init (s : State) (e : InitEvent) : InitStep :=
  match e with
  | .video w h cfg => init_video_stream s w h cfg true
  | .audio ch sr cfg => init_audio_stream s ch sr cfg true

/-- Run a sequence of registration calls; returns the final state and the
number of successful container-header writes performed along the run. -/
def run_inits (s : State) : List InitEvent → State × Nat
  | [] => (s, 0)
  | e :: rest =>
    let st := step_init s e
    let r := run_inits st.state rest
    (r.1, (if st.header_write then 1 else 0) + r.2)

/-- A packet handed to `av_write_frame`. -/
structure AVPacket where
  stream_index : Int
  pts : Int
  dts : Int
  duration : Int
  key_frame : Bool
  data : List Nat
deriving DecidableEq, Repr

inductive WriteFrameResult
  | ok
  | error (msg : String)
deriving DecidableEq, Repr

/-- Outcome of one frame-write call: the returned term, the packet passed
to `av_write_frame` (`none` when the call never reached the container),
and the session state afterwards. -/
structure WriteStep where
  result : WriteFrameResult
  written : Option AVPacket
  state : State
deriving DecidableEq, Repr

/-- `write_video_frame` (rtmp_sink.c lines 143-196).  `av_write_ok` is
the oracle for the `av_write_frame` call. -/
def write_video_frame (s : State) (frame : List Nat) (dts pts : Int)
    (is_key_frame : Bool) (av_write_ok : Bool) : WriteStep :=
  if s.video_stream_index = -1 then
    ⟨.error
      "Video stream is not initialized. Stream format has not been received",
      none, s⟩
  else
    let tb := s.video_time_base
    let dts_scaled := AVUtil.av_rescale_q dts MEMBRANE_TIME_BASE tb
    let pts_scaled := AVUtil.av_rescale_q pts MEMBRANE_TIME_BASE tb
    let packet : AVPacket :=
      { stream_index := s.video_stream_index
        pts := pts_scaled
        dts := dts_scaled
        duration := dts_scaled - s.current_video_dts
        key_frame := is_key_frame
        data := frame }
    let s1 := { s with current_video_dts := dts_scaled }
    if av_write_ok then ⟨.ok, some packet, s1⟩
    else ⟨.error "av_write_frame failed", some packet, s1⟩

/-- `write_audio_frame` (rtmp_sink.c lines 198-245).  Packet DTS is set
to PTS since AAC buffers do not contain DTS. -/
def write_audio_frame (s : State) (frame : List Nat) (pts : Int)
    (av_write_ok : Bool) : WriteStep :=
  if s.audio_stream_index = -1 then
    ⟨.error
      "Audio stream has not been initialized. Stream format has not been received",
      none, s⟩
  else
    let tb := s.audio_time_base
    let pts_scaled := AVUtil.av_rescale_q pts MEMBRANE_TIME_BASE tb
    let packet : AVPacket :=
      { stream_index := s.audio_stream_index
        pts := pts_scaled
        dts := pts_scaled
        duration := pts_scaled - s.current_audio_pts
        key_frame := false
        data := frame }
    let s1 := { s with current_audio_pts := pts_scaled }
    if av_write_ok then ⟨.ok, some packet, s1⟩
    else ⟨.error "av_write_frame failed", some packet, s1⟩

inductive CloseResult
  | ok
  | raise (msg : String)
deriving DecidableEq, Repr

/-- Outcome of one `flush_and_close_stream` call: the returned term,
whether a trailer was successfully written during the call, and the
session state afterwards. -/
structure CloseStep where
  result : CloseResult
  trailer_write : Bool
  state : State
deriving DecidableEq, Repr

/-- `flush_and_close_stream` (rtmp_sink.c lines 46-57).  `trailer_ok` is
the oracle for the `av_write_trailer` call; the C code frees the
container on success but only flips the `closed` flag in the struct. -/
def flush_and_close_stream (s : State) (trailer_ok : Bool) : CloseStep :=
  if !s.output_ctx || s.closed || !is_ready s then ⟨.ok, false, s⟩
  else if !trailer_ok then ⟨.raise "Failed writing stream trailer", false, s⟩
  else ⟨.ok, true, { s with closed := true }⟩

/-- `finalize_stream` (rtmp_sink.c lines 59-62), retained for backward
compatibility: an alias of `flush_and_close_stream`. -/
def finalize_stream (s : State) (trailer_ok : Bool) : CloseStep :=
  flush_and_close_stream s trailer_ok

/-- Run a sequence of close calls (each with its trailer oracle);
returns the final state and the number of successful trailer writes. -/
def run_closes (s : State) : List Bool → State × Nat
  | [] => (s, 0)
  | t :: rest =>
    let st := flush_and_close_stream s t
    let r := run_closes st.state rest
    (r.1, (if st.trailer_write then 1 else 0) + r.2)

/-- `handle_destroy_state` (rtmp_sink.c lines 260-264): close unless
already closed. -/
def handle_destroy_state (s : State) (trailer_ok : Bool) : CloseStep :=
  if !s.closed then flush_and_close_stream s trailer_ok else ⟨.ok, false, s⟩

end RtmpSink

namespace Rtmp

/-- The fields of the legacy ingest struct `State` (rtmp.h) that drive
the idle/active streaming state machine: whether the input and output
contexts are non-NULL and the shared `ready` flag.  The worker thread
sets `ready` as its first action (rtmp.c line 83) and clears it on exit;
the API calls are issued sequentially by a single caller, so spawn plus
worker start are modelled as one atomic transition. -/
structure State where
  input_ctx : Bool
  output_ctx : Bool
  ready : Bool
deriving DecidableEq, Repr

inductive CallResult
  | ok
  | error (msg : String)
deriving DecidableEq, Repr

/-- `stream_frames` (rtmp.c lines 112-119): reject when a worker is
already active (or a context is missing), otherwise spawn the single
worker, which marks the session active. -/
def stream_frames (s : State) : CallResult × State :=
  if !s.input_ctx || !s.output_ctx || s.ready then
    (.error "Already streaming", s)
  else (.ok, { s with ready := true })

/-- `stop_streaming` (rtmp.c lines 121-131): reject when no worker is
active, otherwise clear the cooperative flag and join the worker. -/
def stop_streaming (s : State) : CallResult × State :=
  if !s.ready then (.error "Already stopped", s)
  else (.ok, { s with ready := false })

end Rtmp

namespace RtmpSource

/-- The subset of `AVMediaType` relevant to stream validation. -/
inductive AVMediaType
  | audio
  | video
  | subtitle
  | data
  | attachment
deriving DecidableEq, Repr

/-- Codec identifiers: the two supported ones plus everything else. -/
inductive AVCodecID
  | h264
  | aac
  | other (id : Nat)
deriving DecidableEq, Repr

/-- One stream as discovered by `avformat_find_stream_info`. -/
structure AVStreamInfo where
  codec_type : AVMediaType
  codec_id : AVCodecID
  time_base : Int × Int
  extradata : List Nat
deriving DecidableEq, Repr

/-- Failure modes of the `avformat_open_input` call. -/
inductive OpenFailure
  | timeout
  | interrupted
  | other (msg : String)
deriving DecidableEq, Repr

/-- Result of `await_open`: on success it carries the time base the
H264 bitstream filter was bound to (if a video stream was seen). -/
inductive AwaitOpenResult
  | ok (bsf_time_base : Option (Int × Int))
  | error_timeout
  | error_interrupted
  | error (msg : String)
deriving DecidableEq, Repr

/-- Is this stream of an accepted kind (Audio or Video)? -/
def is_accepted_kind (st : AVStreamInfo) : Bool :=
  st.codec_type == .audio || st.codec_type == .video

/-- The validation loop of `await_open` (rtmp_source.c lines 59-77):
skip streams that are neither audio nor video; fail on the first
audio/video stream whose codec is not H264 or AAC; bind the bitstream
filter to the time base of each H264 stream encountered. -/
def scan_streams : List AVStreamInfo → Option (Int × Int) →
    Except String (Option (Int × Int))
  | [], bsf => .ok bsf
  | st :: rest, bsf =>
    if st.codec_type ≠ .audio ∧ st.codec_type ≠ .video then
      scan_streams rest bsf
    else if st.codec_id ≠ .h264 ∧ st.codec_id ≠ .aac then
      .error "Unsupported codec. Only H264 and AAC are supported"
    else
      scan_streams rest
        (if st.codec_id = .h264 then some st.time_base else bsf)

/-- `await_open` (rtmp_source.c lines 26-84).  `open_result` is the
oracle for `avformat_open_input` (`none` = success),
`find_stream_info_ok` the oracle for `avformat_find_stream_info`;
`streams` is the probe result.  Every error path releases the session
state before returning (the `err:` label), so an error result carries no
usable session. -/
def await_open (open_result : Option OpenFailure)
    (find_stream_info_ok : Bool) (streams : List AVStreamInfo) :
    AwaitOpenResult :=
  match open_result with
  | some .timeout => .error_timeout
  | some .interrupted => .error_interrupted
  | some (.other msg) => .error msg
  | none =>
    if !find_stream_info_ok then .error "Couldn't get stream info"
    else if streams.length = 0 then
      .error "No streams found - at least one stream is required"
    else
      match scan_streams streams none with
      | .error msg => .error msg
      | .ok bsf => .ok bsf

/-- Does an `await_open` result hand a usable session to the caller? -/
def produces_session : AwaitOpenResult → Bool
  | .ok _ => true
  | _ => false

end RtmpSource

namespace AVUtil

theorem ediv_mul_add_half (v c : Int) (hc : 0 < c) :
    (v * c + c / 2) / c = v := by
  have h2 : (0 : Int) ≤ c / 2 := by omega
  have hlt : c / 2 < c := by omega
  rw [add_comm, Int.add_mul_ediv_right _ _ hc.ne']
  rw [Int.ediv_eq_zero_of_lt h2 hlt, zero_add]

theorem round_near_mul (v c : Int) (hc : 0 < c) :
    round_near (v * c) c = v := by
  unfold round_near
  by_cases hv : 0 ≤ v * c
  · rw [if_pos hv]
    exact ediv_mul_add_half v c hc
  · rw [if_neg hv]
    have hneg : -(v * c) = (-v) * c := by ring
    rw [hneg, ediv_mul_add_half (-v) c hc, neg_neg]

end AVUtil

/-- Claim C8: for every timestamp value `v` and every pair of identical
rational time bases `(n,d) → (n,d)` with positive denominator (and
positive numerator, as any rational time base has), the timestamp
rescaler returns exactly `v`: an exact passthrough with no rounding
drift, for all 64-bit signed magnitudes (the model uses unbounded
integers, which covers them all). -/
theorem claim_C8_identical_time_base_passthrough (v n d : Int)
    (hn : 0 < n) (hd : 0 < d) :
    AVUtil.av_rescale_q_rnd v (n, d) (n, d) = v := by
  unfold AVUtil.av_rescale_q_rnd
  split
  · rfl
  · show AVUtil.round_near (v * (n * d)) (d * n) = v
    rw [mul_comm d n]
    exact AVUtil.round_near_mul v (n * d) (mul_pos hn hd)

/-- Witness for C8 at a concrete input. -/
theorem claim_C8_witness :
    AVUtil.av_rescale_q_rnd 123456789 (1, 1000) (1, 1000) = 123456789 :=
  claim_C8_identical_time_base_passthrough 123456789 1 1000 (by norm_num)
    (by norm_num)

namespace RtmpSink

/-- Claim C2: with the relevant stream registered, a successful
`write_video_frame(frame, dts, pts, is_key)` builds a packet whose
duration is `dts_scaled − running_timestamp[video]` and updates
`running_timestamp[video]` (`current_video_dts`) to `dts_scaled`, where
`dts_scaled` rescales `dts` from `MEMBRANE_TIME_BASE` to the video
stream's time base; `write_audio_frame(frame, pts)` is symmetric with
`current_audio_pts` and additionally sets the packet's dts equal to its
scaled pts. -/
theorem claim_C2_write_updates_running_timestamp
    (s t : State) (frame aframe : List Nat) (dts pts apts : Int) (k : Bool)
    (hv : s.video_stream_index ≠ -1) (ha : t.audio_stream_index ≠ -1) :
    write_video_frame s frame dts pts k true =
      ⟨.ok,
        some
          { stream_index := s.video_stream_index
            pts := AVUtil.av_rescale_q pts MEMBRANE_TIME_BASE s.video_time_base
            dts := AVUtil.av_rescale_q dts MEMBRANE_TIME_BASE s.video_time_base
            duration :=
              AVUtil.av_rescale_q dts MEMBRANE_TIME_BASE s.video_time_base -
                s.current_video_dts
            key_frame := k
            data := frame },
        { s with current_video_dts :=
            AVUtil.av_rescale_q dts MEMBRANE_TIME_BASE s.video_time_base }⟩ ∧
    write_audio_frame t aframe apts true =
      ⟨.ok,
        some
          { stream_index := t.audio_stream_index
            pts := AVUtil.av_rescale_q apts MEMBRANE_TIME_BASE t.audio_time_base
            dts := AVUtil.av_rescale_q apts MEMBRANE_TIME_BASE t.audio_time_base
            duration :=
              AVUtil.av_rescale_q apts MEMBRANE_TIME_BASE t.audio_time_base -
                t.current_audio_pts
            key_frame := false
            data := aframe },
        { t with current_audio_pts :=
            AVUtil.av_rescale_q apts MEMBRANE_TIME_BASE t.audio_time_base }⟩ := by
  constructor
  · simp [write_video_frame, hv]
  · simp [write_audio_frame, ha]

/-- Witness for C2 at concrete inputs. -/
theorem claim_C2_witness :
    write_video_frame
        (register_video (create_state true true (1, 1000) (1, 1000)) 640 480 [1])
        [2] 40 50 true true =
      ⟨.ok,
        some
          { stream_index :=
              (register_video (create_state true true (1, 1000) (1, 1000)) 640
                480 [1]).video_stream_index
            pts := AVUtil.av_rescale_q 50 MEMBRANE_TIME_BASE
              (register_video (create_state true true (1, 1000) (1, 1000)) 640
                480 [1]).video_time_base
            dts := AVUtil.av_rescale_q 40 MEMBRANE_TIME_BASE
              (register_video (create_state true true (1, 1000) (1, 1000)) 640
                480 [1]).video_time_base
            duration :=
              AVUtil.av_rescale_q 40 MEMBRANE_TIME_BASE
                  (register_video (create_state true true (1, 1000) (1, 1000))
                    640 480 [1]).video_time_base -
                (register_video (create_state true true (1, 1000) (1, 1000)) 640
                  480 [1]).current_video_dts
            key_frame := true
            data := [2] },
        { register_video (create_state true true (1, 1000) (1, 1000)) 640 480
            [1] with
          current_video_dts :=
            AVUtil.av_rescale_q 40 MEMBRANE_TIME_BASE
              (register_video (create_state true true (1, 1000) (1, 1000)) 640
                480 [1]).video_time_base }⟩ ∧
    write_audio_frame
        (register_audio (create_state true true (1, 1000) (1, 1000)) 2 48000 [3])
        [4] 1024 true =
      ⟨.ok,
        some
          { stream_index :=
              (register_audio (create_state true true (1, 1000) (1, 1000)) 2
                48000 [3]).audio_stream_index
            pts := AVUtil.av_rescale_q 1024 MEMBRANE_TIME_BASE
              (register_audio (create_state true true (1, 1000) (1, 1000)) 2
                48000 [3]).audio_time_base
            dts := AVUtil.av_rescale_q 1024 MEMBRANE_TIME_BASE
              (register_audio (create_state true true (1, 1000) (1, 1000)) 2
                48000 [3]).audio_time_base
            duration :=
              AVUtil.av_rescale_q 1024 MEMBRANE_TIME_BASE
                  (register_audio (create_state true true (1, 1000) (1, 1000)) 2
                    48000 [3]).audio_time_base -
                (register_audio (create_state true true (1, 1000) (1, 1000)) 2
                  48000 [3]).current_audio_pts
            key_frame := false
            data := [4] },
        { register_audio (create_state true true (1, 1000) (1, 1000)) 2 48000
            [3] with
          current_audio_pts :=
            AVUtil.av_rescale_q 1024 MEMBRANE_TIME_BASE
              (register_audio (create_state true true (1, 1000) (1, 1000)) 2
                48000 [3]).audio_time_base }⟩ :=
  claim_C2_write_updates_running_timestamp _ _ _ _ _ _ _ _ (by decide)
    (by decide)

/-- Claim C9: writing a frame of an unregistered kind always returns an
`Error`, passes no packet to the container, and leaves the session state
unchanged. -/
theorem claim_C9_unregistered_write_errors
    (s t : State) (frame aframe : List Nat) (dts pts apts : Int) (k w1 w2 : Bool)
    (hv : s.video_stream_index = -1) (ha : t.audio_stream_index = -1) :
    write_video_frame s frame dts pts k w1 =
      ⟨.error
        "Video stream is not initialized. Stream format has not been received",
        none, s⟩ ∧
    write_audio_frame t aframe apts w2 =
      ⟨.error
        "Audio stream has not been initialized. Stream format has not been received",
        none, t⟩ := by
  constructor
  · simp [write_video_frame, hv]
  · simp [write_audio_frame, ha]

/-- Witness for C9 at concrete inputs. -/
theorem claim_C9_witness :
    write_video_frame (create_state true true (1, 1000) (1, 1000)) [9] 40 50
        true true =
      ⟨.error
        "Video stream is not initialized. Stream format has not been received",
        none, create_state true true (1, 1000) (1, 1000)⟩ ∧
    write_audio_frame (create_state true true (1, 1000) (1, 1000)) [9] 1024
        false =
      ⟨.error
        "Audio stream has not been initialized. Stream format has not been received",
        none, create_state true true (1, 1000) (1, 1000)⟩ :=
  claim_C9_unregistered_write_errors _ _ _ _ _ _ _ _ _ _ rfl rfl

/-- Claim C10: with the stream registered, a failed container write
still advances the running timestamp to the failed frame's rescaled
timestamp while returning an `Error`, and a subsequent successful write
derives its duration from the failed frame's timestamp, not from the
last successfully written one. -/
theorem claim_C10_failed_write_advances_timestamp
    (s t : State) (frame f2 aframe af2 : List Nat)
    (dts pts dts2 pts2 apts apts2 : Int) (k k2 : Bool)
    (hv : s.video_stream_index ≠ -1) (ha : t.audio_stream_index ≠ -1) :
    (write_video_frame s frame dts pts k false).result =
      .error "av_write_frame failed" ∧
    (write_video_frame s frame dts pts k false).state =
      { s with current_video_dts :=
          AVUtil.av_rescale_q dts MEMBRANE_TIME_BASE s.video_time_base } ∧
    ((write_video_frame (write_video_frame s frame dts pts k false).state f2
        dts2 pts2 k2 true).written.map AVPacket.duration) =
      some (AVUtil.av_rescale_q dts2 MEMBRANE_TIME_BASE s.video_time_base -
        AVUtil.av_rescale_q dts MEMBRANE_TIME_BASE s.video_time_base) ∧
    (write_audio_frame t aframe apts false).result =
      .error "av_write_frame failed" ∧
    (write_audio_frame t aframe apts false).state =
      { t with current_audio_pts :=
          AVUtil.av_rescale_q apts MEMBRANE_TIME_BASE t.audio_time_base } ∧
    ((write_audio_frame (write_audio_frame t aframe apts false).state af2 apts2
        true).written.map AVPacket.duration) =
      some (AVUtil.av_rescale_q apts2 MEMBRANE_TIME_BASE t.audio_time_base -
        AVUtil.av_rescale_q apts MEMBRANE_TIME_BASE t.audio_time_base) := by
  refine ⟨?_, ?_, ?_, ?_, ?_, ?_⟩ <;>
    simp [write_video_frame, write_audio_frame, hv, ha]

/-- Witness for C10 at concrete inputs. -/
theorem claim_C10_witness :
    (write_video_frame
        (register_video (create_state true true (1, 1000) (1, 1000)) 640 480 [1])
        [2] 40 50 true false).result = .error "av_write_frame failed" ∧
    (write_video_frame
        (register_video (create_state true true (1, 1000) (1, 1000)) 640 480 [1])
        [2] 40 50 true false).state =
      { register_video (create_state true true (1, 1000) (1, 1000)) 640 480
          [1] with
        current_video_dts :=
          AVUtil.av_rescale_q 40 MEMBRANE_TIME_BASE
            (register_video (create_state true true (1, 1000) (1, 1000)) 640 480
              [1]).video_time_base } ∧
    ((write_video_frame
        (write_video_frame
          (register_video (create_state true true (1, 1000) (1, 1000)) 640 480
            [1]) [2] 40 50 true false).state [5] 80 90 false
        true).written.map AVPacket.duration) =
      some (AVUtil.av_rescale_q 80 MEMBRANE_TIME_BASE
          (register_video (create_state true true (1, 1000) (1, 1000)) 640 480
            [1]).video_time_base -
        AVUtil.av_rescale_q 40 MEMBRANE_TIME_BASE
          (register_video (create_state true true (1, 1000) (1, 1000)) 640 480
            [1]).video_time_base) ∧
    (write_audio_frame
        (register_audio (create_state true true (1, 1000) (1, 1000)) 2 48000 [3])
        [4] 1024 false).result = .error "av_write_frame failed" ∧
    (write_audio_frame
        (register_audio (create_state true true (1, 1000) (1, 1000)) 2 48000 [3])
        [4] 1024 false).state =
      { register_audio (create_state true true (1, 1000) (1, 1000)) 2 48000
          [3] with
        current_audio_pts :=
          AVUtil.av_rescale_q 1024 MEMBRANE_TIME_BASE
            (register_audio (create_state true true (1, 1000) (1, 1000)) 2 48000
              [3]).audio_time_base } ∧
    ((write_audio_frame
        (write_audio_frame
          (register_audio (create_state true true (1, 1000) (1, 1000)) 2 48000
            [3]) [4] 1024 false).state [6] 2048
        true).written.map AVPacket.duration) =
      some (AVUtil.av_rescale_q 2048 MEMBRANE_TIME_BASE
          (register_audio (create_state true true (1, 1000) (1, 1000)) 2 48000
            [3]).audio_time_base -
        AVUtil.av_rescale_q 1024 MEMBRANE_TIME_BASE
          (register_audio (create_state true true (1, 1000) (1, 1000)) 2 48000
            [3]).audio_time_base) :=
  claim_C10_failed_write_advances_timestamp _ _ _ _ _ _ _ _ _ _ _ _ _ _
    (by decide) (by decide)

/-- Claim C3: a second registration call for an already registered
stream kind returns `StreamFormatResent` and leaves the entire session
state unchanged — in particular the first registration's width/height,
channels/sample-rate and extradata, which are part of the state. -/
theorem claim_C3_stream_format_resent
    (s t : State) (w h ch sr : Int) (cfgv cfga : List Nat) (ok1 ok2 : Bool)
    (hv : s.video_stream_index ≠ -1) (ha : t.audio_stream_index ≠ -1) :
    init_video_stream s w h cfgv ok1 =
      ⟨.error_stream_format_resent, false, s⟩ ∧
    init_audio_stream t ch sr cfga ok2 =
      ⟨.error_stream_format_resent, false, t⟩ := by
  constructor
  · simp [init_video_stream, hv]
  · simp [init_audio_stream, ha]

/-- Witness for C3 at concrete inputs. -/
theorem claim_C3_witness :
    init_video_stream
        (register_video (create_state true true (1, 1000) (1, 1000)) 640 480 [1])
        1280 720 [7] true =
      ⟨.error_stream_format_resent, false,
        register_video (create_state true true (1, 1000) (1, 1000)) 640 480
          [1]⟩ ∧
    init_audio_stream
        (register_audio (create_state true true (1, 1000) (1, 1000)) 2 48000 [3])
        1 44100 [8] true =
      ⟨.error_stream_format_resent, false,
        register_audio (create_state true true (1, 1000) (1, 1000)) 2 48000
          [3]⟩ :=
  claim_C3_stream_format_resent _ _ _ _ _ _ _ _ _ _ (by decide) (by decide)

theorem flush_noop_of_closed (s : State) (h : s.closed = true) (t : Bool) :
    flush_and_close_stream s t = ⟨.ok, false, s⟩ := by
  simp [flush_and_close_stream, h]

theorem flush_trailer_closes (s : State) (t : Bool)
    (h : (flush_and_close_stream s t).trailer_write = true) :
    (flush_and_close_stream s t).state.closed = true := by
  by_cases h1 : (!s.output_ctx || s.closed || !is_ready s) = true
  · simp [flush_and_close_stream, h1] at h
  · by_cases ht : t = true
    · simp [flush_and_close_stream, h1, ht]
    · simp [flush_and_close_stream, h1, ht] at h

theorem run_closes_of_closed (l : List Bool) (s : State)
    (h : s.closed = true) : run_closes s l = (s, 0) := by
  induction l with
  | nil => rfl
  | cons t rest ih => simp [run_closes, flush_noop_of_closed s h t, ih]

theorem run_closes_le_one (l : List Bool) (s : State) :
    (run_closes s l).2 ≤ 1 := by
  induction l generalizing s with
  | nil => simp [run_closes]
  | cons t rest ih =>
    simp only [run_closes]
    by_cases hw : (flush_and_close_stream s t).trailer_write = true
    · rw [run_closes_of_closed rest _ (flush_trailer_closes s t hw)]
      simp [hw]
    · simp only [Bool.not_eq_true] at hw
      simp [hw]
      exact ih _

theorem flush_ok_then_noop (s : State) (t1 t2 : Bool)
    (h : (flush_and_close_stream s t1).result = .ok) :
    flush_and_close_stream (flush_and_close_stream s t1).state t2 =
      ⟨.ok, false, (flush_and_close_stream s t1).state⟩ := by
  by_cases h1 : (!s.output_ctx || s.closed || !is_ready s) = true
  · have hstep : flush_and_close_stream s t1 = ⟨.ok, false, s⟩ := by
      simp [flush_and_close_stream, h1]
    rw [hstep]
    simp [flush_and_close_stream, h1]
  · by_cases ht : t1 = true
    · have hstep : flush_and_close_stream s t1 =
          ⟨.ok, true, { s with closed := true }⟩ := by
        simp [flush_and_close_stream, h1, ht]
      rw [hstep]
      exact flush_noop_of_closed _ rfl _
    · exfalso
      have hstep : flush_and_close_stream s t1 =
          ⟨.raise "Failed writing stream trailer", false, s⟩ := by
        simp [flush_and_close_stream, h1, ht]
      rw [hstep] at h
      simp at h

/-- Claim C4: `flush_and_close_stream` (alias `finalize_stream`) returns
success as a no-op when the session was never opened, is not ready, or
is already closed; after a call that returned ok, a second call is a
no-op that succeeds and writes no trailer; and across any sequence of
close calls at most one trailer is ever successfully written. -/
theorem claim_C4_close_idempotent (s : State) (t1 t2 : Bool)
    (l : List Bool) :
    (s.output_ctx = false ∨ s.closed = true ∨ is_ready s = false →
      flush_and_close_stream s t1 = ⟨.ok, false, s⟩) ∧
    ((flush_and_close_stream s t1).result = .ok →
      flush_and_close_stream (flush_and_close_stream s t1).state t2 =
        ⟨.ok, false, (flush_and_close_stream s t1).state⟩) ∧
    (run_closes s l).2 ≤ 1 := by
  refine ⟨?_, flush_ok_then_noop s t1 t2, run_closes_le_one l s⟩
  intro h
  rcases h with h | h | h <;> simp [flush_and_close_stream, h]

/-- Witness for C4 at concrete inputs (a fresh, not yet ready session). -/
theorem claim_C4_witness :
    flush_and_close_stream (create_state true true (1, 1000) (1, 1000)) true =
      ⟨.ok, false, create_state true true (1, 1000) (1, 1000)⟩ ∧
    flush_and_close_stream
        (flush_and_close_stream (create_state true true (1, 1000) (1, 1000))
          true).state false =
      ⟨.ok, false,
        (flush_and_close_stream (create_state true true (1, 1000) (1, 1000))
          true).state⟩ ∧
    (run_closes (create_state true true (1, 1000) (1, 1000))
      [true, false, true]).2 ≤ 1 :=
  ⟨(claim_C4_close_idempotent (create_state true true (1, 1000) (1, 1000)) true
      false [true, false, true]).1 (Or.inr (Or.inr rfl)),
    (claim_C4_close_idempotent (create_state true true (1, 1000) (1, 1000)) true
      false [true, false, true]).2.1 rfl,
    (claim_C4_close_idempotent (create_state true true (1, 1000) (1, 1000)) true
      false [true, false, true]).2.2⟩

end RtmpSink

/-- Claim C5: on the legacy ingest session, `stop_streaming` returns
`Already stopped` when no worker is active, `stream_frames` returns
`Already streaming` when a worker is already active, and after a
successful `stop_streaming` a subsequent `stream_frames` call succeeds;
`stream_frames` never activates a second worker since an active session
rejects it. -/
theorem claim_C5_streaming_state_machine (s : Rtmp.State) :
    (s.ready = false →
      Rtmp.stop_streaming s = (.error "Already stopped", s)) ∧
    (s.ready = true →
      Rtmp.stream_frames s = (.error "Already streaming", s)) ∧
    (s.ready = true →
      Rtmp.stop_streaming s = (.ok, { s with ready := false })) ∧
    (s.ready = true → s.input_ctx = true → s.output_ctx = true →
      Rtmp.stream_frames (Rtmp.stop_streaming s).2 =
        (.ok, { s with ready := true })) := by
  refine ⟨?_, ?_, ?_, ?_⟩
  · intro h
    simp [Rtmp.stop_streaming, h]
  · intro h
    simp [Rtmp.stream_frames, h]
  · intro h
    simp [Rtmp.stop_streaming, h]
  · intro h hi ho
    simp [Rtmp.stop_streaming, Rtmp.stream_frames, h, hi, ho]

/-- Witness for C5 at concrete inputs. -/
theorem claim_C5_witness :
    Rtmp.stop_streaming ⟨true, true, false⟩ =
      (.error "Already stopped", ⟨true, true, false⟩) ∧
    Rtmp.stream_frames ⟨true, true, true⟩ =
      (.error "Already streaming", ⟨true, true, true⟩) ∧
    Rtmp.stop_streaming ⟨true, true, true⟩ = (.ok, ⟨true, true, false⟩) ∧
    Rtmp.stream_frames (Rtmp.stop_streaming ⟨true, true, true⟩).2 =
      (.ok, ⟨true, true, true⟩) :=
  ⟨(claim_C5_streaming_state_machine ⟨true, true, false⟩).1 rfl,
    (claim_C5_streaming_state_machine ⟨true, true, true⟩).2.1 rfl,
    (claim_C5_streaming_state_machine ⟨true, true, true⟩).2.2.1 rfl,
    (claim_C5_streaming_state_machine ⟨true, true, true⟩).2.2.2 rfl rfl rfl⟩

namespace RtmpSource

theorem scan_streams_error_of_bad (l : List AVStreamInfo)
    (bsf : Option (Int × Int))
    (hbad : ∃ st ∈ l, (st.codec_type = .audio ∨ st.codec_type = .video) ∧
      st.codec_id ≠ .h264 ∧ st.codec_id ≠ .aac) :
    scan_streams l bsf =
      .error "Unsupported codec. Only H264 and AAC are supported" := by
  induction l generalizing bsf with
  | nil => simp at hbad
  | cons st rest ih =>
    rcases hbad with ⟨x, hx, hkind, hcid⟩
    rcases List.mem_cons.mp hx with hhead | htail
    · subst hhead
      have hav : ¬(x.codec_type ≠ .audio ∧ x.codec_type ≠ .video) := by
        rcases hkind with h | h <;> simp [h]
      rw [scan_streams, if_neg hav, if_pos hcid]
    · by_cases hskip : st.codec_type ≠ .audio ∧ st.codec_type ≠ .video
      · rw [scan_streams, if_pos hskip]
        exact ih bsf ⟨x, htail, hkind, hcid⟩
      · by_cases hbadhead : st.codec_id ≠ .h264 ∧ st.codec_id ≠ .aac
        · rw [scan_streams, if_neg hskip, if_pos hbadhead]
        · rw [scan_streams, if_neg hskip, if_neg hbadhead]
          exact ih _ ⟨x, htail, hkind, hcid⟩

/-- Claim C6: an ingest open whose discovered streams contain an Audio
or Video stream with a codec outside `{H264, AAC}` fails with the
unsupported-codec error and produces no usable session (the error path
releases the session state before returning). -/
theorem claim_C6_unsupported_codec (streams : List AVStreamInfo)
    (hbad : ∃ st ∈ streams,
      (st.codec_type = .audio ∨ st.codec_type = .video) ∧
      st.codec_id ≠ .h264 ∧ st.codec_id ≠ .aac) :
    await_open none true streams =
      .error "Unsupported codec. Only H264 and AAC are supported" ∧
    produces_session (await_open none true streams) = false := by
  have hne : streams.length ≠ 0 := by
    rcases hbad with ⟨x, hx, _⟩
    exact List.length_pos.mpr (List.ne_nil_of_mem hx) |>.ne'
  have hscan := scan_streams_error_of_bad streams none hbad
  constructor
  · simp [await_open, hne, hscan]
  · simp [await_open, hne, hscan, produces_session]

/-- Witness for C6 at a concrete input: a single VP8-like video stream. -/
theorem claim_C6_witness :
    await_open none true [⟨.video, .other 139, (1, 90000), []⟩] =
      .error "Unsupported codec. Only H264 and AAC are supported" ∧
    produces_session
      (await_open none true [⟨.video, .other 139, (1, 90000), []⟩]) = false :=
  claim_C6_unsupported_codec _ (by decide)

theorem scan_streams_error_msg (l : List AVStreamInfo)
    (bsf : Option (Int × Int)) (m : String)
    (h : scan_streams l bsf = .error m) :
    m = "Unsupported codec. Only H264 and AAC are supported" := by
  induction l generalizing bsf with
  | nil => simp [scan_streams] at h
  | cons st rest ih =>
    by_cases hskip : st.codec_type ≠ .audio ∧ st.codec_type ≠ .video
    · rw [scan_streams, if_pos hskip] at h
      exact ih _ h
    · by_cases hbad : st.codec_id ≠ .h264 ∧ st.codec_id ≠ .aac
      · rw [scan_streams, if_neg hskip, if_pos hbad] at h
        exact (Except.error.injEq _ _ |>.mp h).symm
      · rw [scan_streams, if_neg hskip, if_neg hbad] at h
        exact ih _ h

/-- Counterexample for C7: a source whose single discovered stream is a
DATA stream (zero streams of an accepted kind) is not rejected — the
open succeeds and returns a session, because the code only checks that
the total number of discovered streams is nonzero. -/
theorem claim_C7_counterexample :
    List.countP is_accepted_kind [⟨.data, .other 0, (1, 1000), []⟩] = 0 ∧
    await_open none true [⟨.data, .other 0, (1, 1000), []⟩] = .ok none := by
  constructor
  · decide
  · decide

/-- Claim C7 (amended): the ingest open fails with the `NoStreamsFound`
error exactly when zero streams are discovered in total; a source whose
discovered streams are all of unaccepted kinds is not rejected by this
check. -/
theorem claim_C7_amended_no_streams_total (streams : List AVStreamInfo) :
    await_open none true streams =
      .error "No streams found - at least one stream is required" ↔
    streams = [] := by
  constructor
  · intro h
    cases streams with
    | nil => rfl
    | cons st rest =>
      exfalso
      have hlen : (st :: rest).length ≠ 0 := by simp
      cases hscan : scan_streams (st :: rest) none with
      | error m =>
        have hm := scan_streams_error_msg _ _ _ hscan
        subst hm
        simp [await_open, hlen, hscan] at h
      | ok bsf =>
        simp [await_open, hlen, hscan] at h
  · rintro rfl
    rfl

/-- Witness for the amended C7 at the concrete empty probe result. -/
theorem claim_C7_amended_witness :
    await_open none true [] =
      .error "No streams found - at least one stream is required" :=
  (claim_C7_amended_no_streams_total []).mpr rfl

end RtmpSource

namespace RtmpSink

theorem is_ready_register_video (s : State) (w h : Int) (cfg : List Nat) :
    is_ready (register_video s w h cfg) =
      (!s.audio_present || s.audio_stream_index != -1) := by
  have hnb : ((s.nb_streams : Int) != -1) = true := by
    simp only [bne_iff_ne, ne_eq]
    omega
  simp [is_ready, register_video, hnb]

theorem is_ready_register_audio (s : State) (ch sr : Int) (cfg : List Nat) :
    is_ready (register_audio s ch sr cfg) =
      (!s.video_present || s.video_stream_index != -1) := by
  have hnb : ((s.nb_streams : Int) != -1) = true := by
    simp only [bne_iff_ne, ne_eq]
    omega
  simp [is_ready, register_audio, hnb]

theorem register_video_ready_mono (s : State) (w h : Int) (cfg : List Nat)
    (hr : is_ready s = true) : is_ready (register_video s w h cfg) = true := by
  rw [is_ready_register_video]
  simp only [is_ready, Bool.and_eq_true] at hr
  exact hr.1

theorem register_audio_ready_mono (s : State) (ch sr : Int) (cfg : List Nat)
    (hr : is_ready s = true) : is_ready (register_audio s ch sr cfg) = true := by
  rw [is_ready_register_audio]
  simp only [is_ready, Bool.and_eq_true] at hr
  exact hr.2

theorem header_phase_ready (s1 : State) (b : Bool) :
    is_ready (header_phase s1 b).state = is_ready s1 := by
  unfold header_phase
  split
  · split <;> rfl
  · rfl

theorem header_phase_header (s1 : State) :
    (header_phase s1 true).state.header_written =
      (s1.header_written || is_ready s1) := by
  cases hh : s1.header_written <;> cases hr : is_ready s1 <;>
    simp [header_phase, hh, hr]

theorem header_phase_write (s1 : State) :
    (header_phase s1 true).header_write =
      (is_ready s1 && !s1.header_written) := by
  cases hh : s1.header_written <;> cases hr : is_ready s1 <;>
    simp [header_phase, hh, hr]

theorem step_init_ready_mono (s : State) (e : InitEvent)
    (h : is_ready s = true) : is_ready (step_init s e).state = true := by
  cases e with
  | video w hh cfg =>
    by_cases hreg : s.video_stream_index ≠ -1
    · simp [step_init, init_video_stream, hreg, h]
    · simp only [step_init, init_video_stream, if_neg hreg]
      rw [header_phase_ready]
      exact register_video_ready_mono s w hh cfg h
  | audio ch sr cfg =>
    by_cases hreg : s.audio_stream_index ≠ -1
    · simp [step_init, init_audio_stream, hreg, h]
    · simp only [step_init, init_audio_stream, if_neg hreg]
      rw [header_phase_ready]
      exact register_audio_ready_mono s ch sr cfg h

theorem step_init_J (s : State) (e : InitEvent)
    (hJ : s.header_written = is_ready s) :
    (step_init s e).state.header_written =
      is_ready (step_init s e).state := by
  cases e with
  | video w hh cfg =>
    by_cases hreg : s.video_stream_index ≠ -1
    · simpa [step_init, init_video_stream, hreg] using hJ
    · simp only [step_init, init_video_stream, if_neg hreg]
      rw [header_phase_header, header_phase_ready]
      show (s.header_written || _) = _
      cases hh2 : s.header_written with
      | false => simp
      | true =>
        have hr : is_ready s = true := hJ.symm.trans hh2
        simp [register_video_ready_mono s w hh cfg hr]
  | audio ch sr cfg =>
    by_cases hreg : s.audio_stream_index ≠ -1
    · simpa [step_init, init_audio_stream, hreg] using hJ
    · simp only [step_init, init_audio_stream, if_neg hreg]
      rw [header_phase_header, header_phase_ready]
      show (s.header_written || _) = _
      cases hh2 : s.header_written with
      | false => simp
      | true =>
        have hr : is_ready s = true := hJ.symm.trans hh2
        simp [register_audio_ready_mono s ch sr cfg hr]

theorem step_init_header_write_iff (s : State) (e : InitEvent)
    (hJ : s.header_written = is_ready s) :
    (step_init s e).header_write =
      (is_ready (step_init s e).state && !is_ready s) := by
  cases e with
  | video w hh cfg =>
    by_cases hreg : s.video_stream_index ≠ -1
    · simp [step_init, init_video_stream, hreg]
    · simp only [step_init, init_video_stream, if_neg hreg]
      rw [header_phase_write, header_phase_ready]
      show (_ && !s.header_written) = _
      rw [hJ]
  | audio ch sr cfg =>
    by_cases hreg : s.audio_stream_index ≠ -1
    · simp [step_init, init_audio_stream, hreg]
    · simp only [step_init, init_audio_stream, if_neg hreg]
      rw [header_phase_write, header_phase_ready]
      show (_ && !s.header_written) = _
      rw [hJ]

theorem step_init_header_mono (s : State) (e : InitEvent)
    (h : s.header_written = true) :
    (step_init s e).state.header_written = true ∧
      (step_init s e).header_write = false := by
  cases e with
  | video w hh cfg =>
    by_cases hreg : s.video_stream_index ≠ -1
    · simp [step_init, init_video_stream, hreg, h]
    · simp only [step_init, init_video_stream, if_neg hreg]
      constructor
      · rw [header_phase_header]
        show (s.header_written || _) = true
        simp [h]
      · rw [header_phase_write]
        show (_ && !s.header_written) = false
        simp [h]
  | audio ch sr cfg =>
    by_cases hreg : s.audio_stream_index ≠ -1
    · simp [step_init, init_audio_stream, hreg, h]
    · simp only [step_init, init_audio_stream, if_neg hreg]
      constructor
      · rw [header_phase_header]
        show (s.header_written || _) = true
        simp [h]
      · rw [header_phase_write]
        show (_ && !s.header_written) = false
        simp [h]

theorem step_init_write_sets_header (s : State) (e : InitEvent)
    (hw : (step_init s e).header_write = true) :
    (step_init s e).state.header_written = true := by
  cases e with
  | video w hh cfg =>
    by_cases hreg : s.video_stream_index ≠ -1
    · simp [step_init, init_video_stream, hreg] at hw
    · simp only [step_init, init_video_stream, if_neg hreg] at hw ⊢
      rw [header_phase_write] at hw
      rw [header_phase_header]
      simp only [Bool.and_eq_true] at hw
      simp [hw.1]
  | audio ch sr cfg =>
    by_cases hreg : s.audio_stream_index ≠ -1
    · simp [step_init, init_audio_stream, hreg] at hw
    · simp only [step_init, init_audio_stream, if_neg hreg] at hw ⊢
      rw [header_phase_write] at hw
      rw [header_phase_header]
      simp only [Bool.and_eq_true] at hw
      simp [hw.1]

theorem step_init_no_write_header_eq (s : State) (e : InitEvent)
    (hw : (step_init s e).header_write = false) :
    (step_init s e).state.header_written = s.header_written := by
  cases e with
  | video w hh cfg =>
    by_cases hreg : s.video_stream_index ≠ -1
    · simp [step_init, init_video_stream, hreg]
    · simp only [step_init, init_video_stream, if_neg hreg] at hw ⊢
      rw [header_phase_write] at hw
      rw [header_phase_header]
      show (s.header_written || _) = s.header_written
      cases hh2 : s.header_written with
      | true => simp
      | false =>
        have : (_ && !s.header_written) = false := hw
        rw [hh2] at this
        simp only [Bool.not_false, Bool.and_true] at this
        simp [this]
  | audio ch sr cfg =>
    by_cases hreg : s.audio_stream_index ≠ -1
    · simp [step_init, init_audio_stream, hreg]
    · simp only [step_init, init_audio_stream, if_neg hreg] at hw ⊢
      rw [header_phase_write] at hw
      rw [header_phase_header]
      show (s.header_written || _) = s.header_written
      cases hh2 : s.header_written with
      | true => simp
      | false =>
        have : (_ && !s.header_written) = false := hw
        rw [hh2] at this
        simp only [Bool.not_false, Bool.and_true] at this
        simp [this]

end RtmpSink

namespace RtmpSink

theorem run_inits_cons (s : State) (e : InitEvent) (l : List InitEvent) :
    run_inits s (e :: l) =
      ((run_inits (step_init s e).state l).1,
        (if (step_init s e).header_write then 1 else 0) +
          (run_inits (step_init s e).state l).2) := rfl

theorem step_ready_of_write (s : State) (e : InitEvent)
    (hw : (step_init s e).header_write = true) :
    is_ready (step_init s e).state = true := by
  cases e with
  | video w hh cfg =>
    by_cases hreg : s.video_stream_index ≠ -1
    · simp [step_init, init_video_stream, hreg] at hw
    · simp only [step_init, init_video_stream, if_neg hreg] at hw ⊢
      rw [header_phase_write] at hw
      rw [header_phase_ready]
      exact (Bool.and_eq_true _ _ |>.mp hw).1
  | audio ch sr cfg =>
    by_cases hreg : s.audio_stream_index ≠ -1
    · simp [step_init, init_audio_stream, hreg] at hw
    · simp only [step_init, init_audio_stream, if_neg hreg] at hw ⊢
      rw [header_phase_write] at hw
      rw [header_phase_ready]
      exact (Bool.and_eq_true _ _ |>.mp hw).1

theorem run_inits_ready_mono (l : List InitEvent) (s : State)
    (h : is_ready s = true) : is_ready (run_inits s l).1 = true := by
  induction l generalizing s with
  | nil => exact h
  | cons e rest ih =>
    rw [run_inits_cons]
    exact ih _ (step_init_ready_mono s e h)

theorem run_inits_K (l : List InitEvent) (s : State)
    (hK : s.header_written = true → is_ready s = true) :
    (run_inits s l).1.header_written = true →
      is_ready (run_inits s l).1 = true := by
  induction l generalizing s with
  | nil => exact hK
  | cons e rest ih =>
    rw [run_inits_cons]
    refine ih _ ?_
    intro h2
    by_cases hw : (step_init s e).header_write = true
    · exact step_ready_of_write s e hw
    · have hw' : (step_init s e).header_write = false :=
        eq_false_of_ne_true hw
      have heq := step_init_no_write_header_eq s e hw'
      rw [heq] at h2
      exact step_init_ready_mono s e (hK h2)

theorem run_inits_J (l : List InitEvent) (s : State)
    (hJ : s.header_written = is_ready s) :
    (run_inits s l).1.header_written = is_ready (run_inits s l).1 := by
  induction l generalizing s with
  | nil => exact hJ
  | cons e rest ih =>
    rw [run_inits_cons]
    exact ih _ (step_init_J s e hJ)

theorem run_inits_append (s : State) (l1 l2 : List InitEvent) :
    run_inits s (l1 ++ l2) =
      ((run_inits (run_inits s l1).1 l2).1,
        (run_inits s l1).2 + (run_inits (run_inits s l1).1 l2).2) := by
  induction l1 generalizing s with
  | nil => simp [run_inits]
  | cons e rest ih =>
    simp only [List.cons_append, run_inits_cons, ih, Nat.add_assoc]

theorem run_inits_count_of_written (l : List InitEvent) (s : State)
    (h : s.header_written = true) :
    (run_inits s l).2 = 0 ∧ (run_inits s l).1.header_written = true := by
  induction l generalizing s with
  | nil => exact ⟨rfl, h⟩
  | cons e rest ih =>
    have hm := step_init_header_mono s e h
    have hrest := ih (step_init s e).state hm.1
    rw [run_inits_cons]
    exact ⟨by simp [hm.2, hrest.1], hrest.2⟩

theorem run_inits_count (l : List InitEvent) (s : State)
    (h : s.header_written = false) :
    (run_inits s l).2 =
      if (run_inits s l).1.header_written = true then 1 else 0 := by
  induction l generalizing s with
  | nil => simp [run_inits, h]
  | cons e rest ih =>
    rw [run_inits_cons]
    by_cases hw : (step_init s e).header_write = true
    · have h1 := step_init_write_sets_header s e hw
      have h2 := run_inits_count_of_written rest _ h1
      simp [hw, h2.1, h2.2]
    · have hw' : (step_init s e).header_write = false :=
        eq_false_of_ne_true hw
      have h1 := step_init_no_write_header_eq s e hw'
      rw [h] at h1
      have := ih (step_init s e).state h1
      simp [hw', this]

theorem create_state_header (aP vP : Bool) (vtb atb : Int × Int) :
    (create_state aP vP vtb atb).header_written = false := rfl

theorem create_state_not_ready (aP vP : Bool) (vtb atb : Int × Int)
    (h : aP = true ∨ vP = true) :
    is_ready (create_state aP vP vtb atb) = false := by
  rcases h with h | h <;>
    simp [is_ready, create_state, handle_init_state, h]

end RtmpSink

namespace RtmpSink

/-- Claim C1: for every egress session and every order of
`init_video_stream`/`init_audio_stream` calls (with the header write
succeeding), at most one container header is ever written along the run;
whenever `header_written` is set, readiness holds; readiness transitions
false→true at most once (it is monotone along the run); and, when the
expected set of stream kinds is nonempty, a call writes the header
exactly when it completes the expected set (readiness is false before
the call and true after it), so the header count over a run is one
exactly when the final state is ready. -/
theorem claim_C1_header_once_and_ready (aP vP : Bool) (vtb atb : Int × Int)
    (events l1 l2 : List InitEvent) (e : InitEvent) :
    (run_inits (create_state aP vP vtb atb) events).2 ≤ 1 ∧
    ((run_inits (create_state aP vP vtb atb) events).1.header_written = true →
      is_ready (run_inits (create_state aP vP vtb atb) events).1 = true) ∧
    (is_ready (run_inits (create_state aP vP vtb atb) l1).1 = true →
      is_ready (run_inits (create_state aP vP vtb atb) (l1 ++ l2)).1 = true) ∧
    (aP = true ∨ vP = true →
      ((step_init (run_inits (create_state aP vP vtb atb) l1).1 e).header_write
          = true ↔
        is_ready
            (step_init (run_inits (create_state aP vP vtb atb) l1).1 e).state
          = true ∧
        is_ready (run_inits (create_state aP vP vtb atb) l1).1 = false) ∧
      (run_inits (create_state aP vP vtb atb) events).2 =
        if is_ready (run_inits (create_state aP vP vtb atb) events).1 = true
        then 1 else 0) := by
  have hc0 := create_state_header aP vP vtb atb
  refine ⟨?_, ?_, ?_, ?_⟩
  · rw [run_inits_count events _ hc0]
    split <;> omega
  · exact run_inits_K events _ (fun h => absurd (hc0 ▸ h) (by simp))
  · intro h
    rw [run_inits_append]
    exact run_inits_ready_mono l2 _ h
  · intro hne
    have hJ0 : (create_state aP vP vtb atb).header_written =
        is_ready (create_state aP vP vtb atb) := by
      rw [hc0, create_state_not_ready aP vP vtb atb hne]
    have hJ1 := run_inits_J l1 _ hJ0
    constructor
    · rw [step_init_header_write_iff _ e hJ1]
      simp [Bool.and_eq_true]
    · have hJe := run_inits_J events _ hJ0
      rw [run_inits_count events _ hc0]
      simp only [hJe]

/-- Witness for C1 at concrete inputs: both kinds expected, video then
audio registered. -/
theorem claim_C1_witness :
    (run_inits (create_state true true (1, 1000) (1, 1000))
      [.video 640 480 [1], .audio 2 48000 [2]]).2 ≤ 1 ∧
    ((run_inits (create_state true true (1, 1000) (1, 1000))
        [.video 640 480 [1], .audio 2 48000 [2]]).1.header_written = true →
      is_ready (run_inits (create_state true true (1, 1000) (1, 1000))
        [.video 640 480 [1], .audio 2 48000 [2]]).1 = true) ∧
    (is_ready (run_inits (create_state true true (1, 1000) (1, 1000))
        [.video 640 480 [1]]).1 = true →
      is_ready (run_inits (create_state true true (1, 1000) (1, 1000))
        ([.video 640 480 [1]] ++ [.audio 2 48000 [2]])).1 = true) ∧
    ((step_init (run_inits (create_state true true (1, 1000) (1, 1000))
          [.video 640 480 [1]]).1 (.audio 2 48000 [2])).header_write = true ↔
      is_ready (step_init (run_inits (create_state true true (1, 1000) (1, 1000))
          [.video 640 480 [1]]).1 (.audio 2 48000 [2])).state = true ∧
      is_ready (run_inits (create_state true true (1, 1000) (1, 1000))
          [.video 640 480 [1]]).1 = false) ∧
    (run_inits (create_state true true (1, 1000) (1, 1000))
        [.video 640 480 [1], .audio 2 48000 [2]]).2 =
      if is_ready (run_inits (create_state true true (1, 1000) (1, 1000))
          [.video 640 480 [1], .audio 2 48000 [2]]).1 = true
      then 1 else 0 :=
  have h := claim_C1_header_once_and_ready true true (1, 1000) (1, 1000)
    [.video 640 480 [1], .audio 2 48000 [2]] [.video 640 480 [1]]
    [.audio 2 48000 [2]] (.audio 2 48000 [2])
  ⟨h.1, h.2.1, h.2.2.1, (h.2.2.2 (Or.inl rfl)).1, (h.2.2.2 (Or.inl rfl)).2⟩

end RtmpSink
